import Mathlib

/-!
Verification of the trade-manager core: a shallow embedding of
`trade_manager.py` (condition evaluators and the per-trade control loop)
and `tradier_client.py` (order submission / fill-price extraction),
with theorems settling the specified properties.

Prices and reference levels are modelled as rationals (`ℚ`); nullable
record fields are `Option`s; Python truthiness on optional strings/bools
is made explicit at each use site, mirroring the source.
-/

namespace TradeManager

/-- One entry of a snapshot's `tf_closes` mapping (a dict holding a
nullable `"close"` price). -/
structure TfRow where
  close : Option ℚ
  deriving Repr, DecidableEq

/-- A market snapshot row as read by `trade_manager.py`: nullable
`last_price` and a mapping timeframe → `TfRow`. -/
structure SpotRow where
  last_price : Option ℚ
  tf_closes : List (String × TfRow)
  deriving Repr, DecidableEq

/-- A trade record (row of the active-trades table) with exactly the
fields `trade_manager.py` reads.  Nullable fields are `Option`s; `qty`
is stored after the loop's `int(row.get("qty") or 0)` conversion. -/
structure Row where
  side : Option String
  asset_type : Option String
  symbol : Option String
  occ : Option String
  qty : Int
  manage : Option String
  status : Option String
  entry_enabled : Option Bool
  entry_cond : Option String
  entry_price_type : Option String
  entry_tf : Option String
  entry : Option ℚ
  sl_enabled : Option Bool
  sl_cond : Option String
  sl_price_type : Option String
  sl_tf : Option String
  sl : Option ℚ
  tp_enabled : Option Bool
  tp_cond : Option String
  tp_price_type : Option String
  tp_tf : Option String
  tp : Option ℚ
  deriving Repr, DecidableEq

/-- ASCII lower-casing of a string, character by character (the effect
of Python's `str.lower()` on the ASCII condition/type strings used by
the trade manager). -/
def strLower (s : String) : String :=
  String.mk (s.data.map Char.toLower)

/-- Python `(x or "").lower()` on a nullable string field. -/
def lowerOr (s : Option String) : String :=
  strLower (s.getD "")

/-- Function `_get_spot_price`: `None` if the snapshot row is absent, else its
(nullable) `last_price`. -/
def _get_spot_price (spot_row : Option SpotRow) : Option ℚ :=
  match spot_row with
  | none => none
  | some r => r.last_price

/-- Function `_get_tf_close`: the close of the given timeframe's row, `None` when
the snapshot is absent, the timeframe is absent or empty (falsy), the
timeframe has no row, or the row has no close. -/
def _get_tf_close (spot_row : Option SpotRow) (tf : Option String) : Option ℚ :=
  match spot_row, tf with
  | none, _ => none
  | _, none => none
  | some r, some t =>
    if t = "" then none
    else
      match r.tf_closes.lookup t with
      | none => none
      | some tf_row => tf_row.close

/-- Function `_get_entry_price`: resolves the entry comparison price.  The
snapshot is selected by the trade's `asset_type` (underlying for
`"equity"`, option otherwise); `entry_price_type = "tf"` selects the
timeframe close, anything else the spot last price. -/
def _get_entry_price (row : Row) (spot_under spot_option : Option SpotRow) : Option ℚ :=
  let price_type := lowerOr row.entry_price_type
  let tf := row.entry_tf
  if row.asset_type = some "equity" then
    if price_type = "tf" then _get_tf_close spot_under tf
    else _get_spot_price spot_under
  else
    if price_type = "tf" then _get_tf_close spot_option tf
    else _get_spot_price spot_option

/-- Function `_get_sl_level`. -/
def _get_sl_level (row : Row) : Option ℚ :=
  row.sl

/-- Function `_get_tp_level`. -/
def _get_tp_level (row : Row) : Option ℚ :=
  row.tp

/-- Function `check_entry`: returns `(should_enter, entry_price_used)`.  Mirrors
the source order of checks: enabled, condition string, resolved price,
then the reference level, then the condition dispatch (`"touch"`,
`"candle-close"`, `"now"`). -/
def check_entry (row : Row) (spot_under spot_option : Option SpotRow) :
    Bool × Option ℚ :=
  if row.entry_enabled = some true then
    let cond := lowerOr row.entry_cond
    if cond = "" then (false, none)
    else
      let is_long := row.side = some "long"
      match _get_entry_price row spot_under spot_option with
      | none => (false, none)
      | some price =>
        match row.entry with
        | none => (false, none)
        | some entry =>
          if cond = "touch" then
            if is_long ∧ price ≤ entry then (true, some price)
            else if ¬ is_long ∧ price ≥ entry then (true, some price)
            else (false, none)
          else if cond = "candle-close" then
            if is_long ∧ price ≤ entry then (true, some price)
            else if ¬ is_long ∧ price ≥ entry then (true, some price)
            else (false, none)
          else if cond = "now" then (true, some price)
          else (false, none)
  else (false, none)

/-- The stop-loss price-resolution block inlined in `check_sl`
(`trade_manager.py` lines 133–143), identical in shape to
`_get_entry_price` but driven by `sl_price_type` / `sl_tf`. -/
def sl_price (row : Row) (spot_under spot_option : Option SpotRow) : Option ℚ :=
  let price_type := lowerOr row.sl_price_type
  let tf := row.sl_tf
  if row.asset_type = some "equity" then
    if price_type = "tf" then _get_tf_close spot_under tf
    else _get_spot_price spot_under
  else
    if price_type = "tf" then _get_tf_close spot_option tf
    else _get_spot_price spot_option

/-- Function `check_sl`: returns `(sl_hit, price_used)`.  Checks enabled,
condition string, level, resolved price; only the `"at"` condition can
fire (long: price ≤ level, short: price ≥ level). -/
def check_sl (row : Row) (spot_under spot_option : Option SpotRow) :
    Bool × Option ℚ :=
  if row.sl_enabled = some true then
    let cond := lowerOr row.sl_cond
    if cond = "" then (false, none)
    else
      let is_long := row.side = some "long"
      match _get_sl_level row with
      | none => (false, none)
      | some level =>
        match sl_price row spot_under spot_option with
        | none => (false, none)
        | some price =>
          if cond = "at" then
            if is_long ∧ price ≤ level then (true, some price)
            else if ¬ is_long ∧ price ≥ level then (true, some price)
            else (false, none)
          else (false, none)
  else (false, none)

/-- The take-profit price-resolution block inlined in `check_tp`
(`trade_manager.py` lines 180–190), driven by `tp_price_type` / `tp_tf`. -/
def tp_price (row : Row) (spot_under spot_option : Option SpotRow) : Option ℚ :=
  let price_type := lowerOr row.tp_price_type
  let tf := row.tp_tf
  if row.asset_type = some "equity" then
    if price_type = "tf" then _get_tf_close spot_under tf
    else _get_spot_price spot_under
  else
    if price_type = "tf" then _get_tf_close spot_option tf
    else _get_spot_price spot_option

/-- Function `check_tp`: returns `(tp_hit, price_used)`.  Same structure as
`check_sl` with the comparison inverted (long: price ≥ level, short:
price ≤ level). -/
def check_tp (row : Row) (spot_under spot_option : Option SpotRow) :
    Bool × Option ℚ :=
  if row.tp_enabled = some true then
    let cond := lowerOr row.tp_cond
    if cond = "" then (false, none)
    else
      let is_long := row.side = some "long"
      match _get_tp_level row with
      | none => (false, none)
      | some level =>
        match tp_price row spot_under spot_option with
        | none => (false, none)
        | some price =>
          if cond = "at" then
            if is_long ∧ price ≥ level then (true, some price)
            else if ¬ is_long ∧ price ≤ level then (true, some price)
            else (false, none)
          else (false, none)
  else (false, none)

/-! ## Broker client (`tradier_client.py`)

The HTTP exchange is abstracted as an `HttpResult`: `failure` covers any
transport error or non-success status (everything the `try/except`
swallows), `success` carries the parsed body's nullable `"order"` object.
A fill price whose `float(...)` conversion would fail is modelled as an
absent price, since both fall through identically in the source. -/

/-- One element of an order's `fills` list (nullable `"price"`). -/
structure Fill where
  price : Option ℚ
  deriving Repr, DecidableEq

/-- The `"order"` object of a successful response body: a `fills` list
and a nullable `average_fill_price`. -/
structure BrokerOrder where
  fills : List Fill
  average_fill_price : Option ℚ
  deriving Repr, DecidableEq

/-- Outcome of the HTTP order submission. -/
inductive HttpResult where
  | failure
  | success (order : Option BrokerOrder)
  deriving Repr, DecidableEq

/-- The first fill's price, when the fills list is non-empty and that
price is present (`fills[0].get("price")`). -/
def fills_head_price (fills : List Fill) : Option ℚ :=
  match fills with
  | [] => none
  | f :: _ => f.price

/-- The fill-price extraction shared verbatim by `place_equity_market`
and `place_option_market`: on failure `None`; on success the first
fill's price if it yields one, else `average_fill_price`, else `None`.
`(data or {}).get("order") or {}` makes a missing order object behave as
an empty one. -/
def extract_fill_price (resp : HttpResult) : Option ℚ :=
  match resp with
  | .failure => none
  | .success ord =>
    let order := ord.getD ⟨[], none⟩
    match fills_head_price order.fills with
    | some p => some p
    | none => order.average_fill_price

/-- Function `place_equity_market`, as a function of the broker's response. -/
def place_equity_market (resp : HttpResult) : Option ℚ :=
  extract_fill_price resp

/-- Function `place_option_market`, as a function of the broker's response (the
`"O:"` prefix-stripping affects only the request payload's symbol, not
the returned price). -/
def place_option_market (resp : HttpResult) : Option ℚ :=
  extract_fill_price resp

/-! ## Control loop (`run_trade_manager`), one trade in one iteration

The broker is an oracle `OrderReq → Option ℚ` (the fill price the
submission resolves to, `none` = no confirmed fill).  Persistence calls
are recorded as issued writes; in the source each write is wrapped in
`try/except` that only logs, so issuing is what the loop decides. -/

/-- A market-order request as built by the loop (class, instrument,
quantity, side). -/
structure OrderReq where
  cls : String
  instrument : Option String
  qty : Int
  side : String
  deriving Repr, DecidableEq

/-- A persistence write issued by the loop for one trade. -/
inductive DbWrite where
  | insert_executed_trade_open (open_price : ℚ)
  | mark_as_managing
  | update_executed_trade_close (close_price : ℚ) (reason : String)
  | delete_trade
  deriving Repr, DecidableEq

/-- What processing one row in one iteration did: the broker calls made
(in order), the persistence writes issued (in order), and which
condition evaluators ran (in order: `"entry"`, `"sl"`, `"tp"`). -/
structure StepResult where
  orders : List OrderReq
  writes : List DbWrite
  evals : List String
  deriving Repr, DecidableEq

/-- The sell / sell-to-close order request built identically at the
force-close, stop-loss and take-profit sites (loop-lowercased
`asset_type` selects equity vs option). -/
def close_req (row : Row) : OrderReq :=
  if lowerOr row.asset_type = "equity" then
    ⟨"equity", row.symbol, row.qty, "sell"⟩
  else
    ⟨"option", row.occ, row.qty, "sell_to_close"⟩

/-- The buy / buy-to-open order request built at the entry site. -/
def open_req (row : Row) : OrderReq :=
  if lowerOr row.asset_type = "equity" then
    ⟨"equity", row.symbol, row.qty, "buy"⟩
  else
    ⟨"option", row.occ, row.qty, "buy_to_open"⟩

/-- Body of `run_trade_manager` for a single row of one iteration
(`trade_manager.py` lines 220–671), given the two snapshots already
fetched and the broker oracle.  Mirrors the source's dispatch:
`manage = "C"` (delete when `nt-waiting`; close-then-delete on a
confirmed fill when managing), skip unless `manage = "Y"`, entry when
`nt-waiting`, else SL first then TP when managing. -/
def process_row (row : Row) (spot_under spot_option : Option SpotRow)
    (broker : OrderReq → Option ℚ) : StepResult :=
  if row.manage = some "C" then
    if row.status = some "nt-waiting" then
      ⟨[], [.delete_trade], []⟩
    else if row.status = some "nt-managing" ∨ row.status = some "pos-managing" then
      match broker (close_req row) with
      | none => ⟨[close_req row], [], []⟩
      | some fill_price =>
        ⟨[close_req row],
         [.update_executed_trade_close fill_price "force", .delete_trade], []⟩
    else ⟨[], [], []⟩
  else if row.manage ≠ some "Y" then
    ⟨[], [], []⟩
  else if row.status = some "nt-waiting" then
    if (check_entry row spot_under spot_option).1 = false
        ∨ (check_entry row spot_under spot_option).2 = none then
      ⟨[], [], ["entry"]⟩
    else
      match broker (open_req row) with
      | none => ⟨[open_req row], [], ["entry"]⟩
      | some fill_price =>
        ⟨[open_req row],
         [.insert_executed_trade_open fill_price, .mark_as_managing], ["entry"]⟩
  else if row.status = some "nt-managing" ∨ row.status = some "pos-managing" then
    if (check_sl row spot_under spot_option).1 = true
        ∧ (check_sl row spot_under spot_option).2 ≠ none then
      match broker (close_req row) with
      | none => ⟨[close_req row], [], ["sl"]⟩
      | some fill_price =>
        ⟨[close_req row],
         [.update_executed_trade_close fill_price "sl", .delete_trade], ["sl"]⟩
    else
      if (check_tp row spot_under spot_option).1 = true
          ∧ (check_tp row spot_under spot_option).2 ≠ none then
        match broker (close_req row) with
        | none => ⟨[close_req row], [], ["sl", "tp"]⟩
        | some fill_price =>
          ⟨[close_req row],
           [.update_executed_trade_close fill_price "tp", .delete_trade], ["sl", "tp"]⟩
      else ⟨[], [], ["sl", "tp"]⟩
  else ⟨[], [], []⟩

/-! ## Concrete fixtures (used by witnesses and counterexamples) -/

/-- A trade record with every nullable field absent and quantity 0. -/
def emptyRow : Row :=
  { side := none, asset_type := none, symbol := none, occ := none, qty := 0,
    manage := none, status := none,
    entry_enabled := none, entry_cond := none, entry_price_type := none,
    entry_tf := none, entry := none,
    sl_enabled := none, sl_cond := none, sl_price_type := none,
    sl_tf := none, sl := none,
    tp_enabled := none, tp_cond := none, tp_price_type := none,
    tp_tf := none, tp := none }

/-- A managing long equity trade whose stop-loss is satisfied. -/
def c1Row : Row :=
  { emptyRow with
    manage := some "Y", status := some "nt-managing",
    asset_type := some "equity", symbol := some "XYZ", qty := 3,
    side := some "long", sl_enabled := some true, sl_cond := some "at",
    sl := some 100 }

/-- An underlying snapshot whose last price (95) is under the 100 level. -/
def c1Spot : SpotRow :=
  { last_price := some 95, tf_closes := [] }

/-- A long option trade entering on touch at 1000 with a stop-loss at
500. -/
def c2Row : Row :=
  { emptyRow with
    asset_type := some "option", side := some "long",
    entry_enabled := some true, entry_cond := some "touch", entry := some 1000,
    sl_enabled := some true, sl_cond := some "at", sl := some 500 }

/-- Underlying snapshot at 100 (below the stop-loss level 500). -/
def c2Under : SpotRow :=
  { last_price := some 100, tf_closes := [] }

/-- Option snapshot at 1000 (above the stop-loss level 500). -/
def c2Option : SpotRow :=
  { last_price := some 1000, tf_closes := [] }

/-- A long equity trade with entry touch at 100, stop-loss at 90,
take-profit at 110. -/
def c3Row : Row :=
  { emptyRow with
    side := some "long", asset_type := some "equity",
    entry_enabled := some true, entry_cond := some "touch", entry := some 100,
    sl_enabled := some true, sl_cond := some "at", sl := some 90,
    tp_enabled := some true, tp_cond := some "at", tp := some 110 }

/-- Underlying snapshot at 95. -/
def c3Spot : SpotRow :=
  { last_price := some 95, tf_closes := [] }

/-- A managing long equity trade whose stop-loss (level 100) and
take-profit (level 50) are both satisfied at price 80. -/
def c4Row : Row :=
  { emptyRow with
    manage := some "Y", status := some "pos-managing",
    asset_type := some "equity", symbol := some "XYZ", qty := 2,
    side := some "long",
    sl_enabled := some true, sl_cond := some "at", sl := some 100,
    tp_enabled := some true, tp_cond := some "at", tp := some 50 }

/-- Underlying snapshot at 80. -/
def c4Spot : SpotRow :=
  { last_price := some 80, tf_closes := [] }

/-- An equity trade with entry condition `"now"`, enabled, but a null
reference level. -/
def c5Row : Row :=
  { emptyRow with
    asset_type := some "equity", side := some "long",
    entry_enabled := some true, entry_cond := some "now" }

/-- Underlying snapshot at 50. -/
def c5Spot : SpotRow :=
  { last_price := some 50, tf_closes := [] }

/-- A pending-entry trade flagged for force close. -/
def c7Row : Row :=
  { emptyRow with
    manage := some "C", status := some "nt-waiting" }

/-- A trade whose entry is disabled (level 1000 present), whose
stop-loss is enabled but has no level, and whose take-profit needs a
timeframe close with no timeframe set. -/
def c8Row : Row :=
  { emptyRow with
    asset_type := some "equity", side := some "long",
    entry_cond := some "touch", entry := some 1000,
    sl_enabled := some true, sl_cond := some "at",
    tp_enabled := some true, tp_cond := some "at",
    tp_price_type := some "tf", tp := some 1 }

/-- Underlying snapshot at 0. -/
def c8Spot : SpotRow :=
  { last_price := some 0, tf_closes := [] }

/-- A long equity trade with trigger kind touch but timeframe price
type: entry level 100, timeframe `"5m"`. -/
def c9Row : Row :=
  { emptyRow with
    asset_type := some "equity", side := some "long",
    entry_enabled := some true, entry_cond := some "touch",
    entry_price_type := some "tf", entry_tf := some "5m", entry := some 100 }

/-- Underlying snapshot: last price 50, `"5m"` close 200. -/
def c9Spot : SpotRow :=
  { last_price := some 50, tf_closes := [("5m", ⟨some 200⟩)] }

/-- A long equity trade whose stop-loss (level 1000) and take-profit
(level 1) use the `"candle-close"` trigger kind. -/
def c10Row : Row :=
  { emptyRow with
    asset_type := some "equity", side := some "long",
    sl_enabled := some true, sl_cond := some "candle-close", sl := some 1000,
    tp_enabled := some true, tp_cond := some "candle-close", tp := some 1 }

/-- Underlying snapshot at 5 (below the SL level, above the TP level). -/
def c10Spot : SpotRow :=
  { last_price := some 5, tf_closes := [] }

/-! ## Helper lemmas -/

/-- With both snapshots absent, no entry price resolves. -/
theorem get_entry_price_none (row : Row) : _get_entry_price row none none = none := by
  unfold _get_entry_price _get_tf_close _get_spot_price
  repeat' split <;> simp_all

/-- With both snapshots absent, no stop-loss price resolves. -/
theorem sl_price_none (row : Row) : sl_price row none none = none := by
  unfold sl_price _get_tf_close _get_spot_price
  repeat' split <;> simp_all

/-- With both snapshots absent, no take-profit price resolves. -/
theorem tp_price_none (row : Row) : tp_price row none none = none := by
  unfold tp_price _get_tf_close _get_spot_price
  repeat' split <;> simp_all

/-- For an equity trade the entry price is resolved from the underlying
snapshot only. -/
theorem get_entry_price_equity (row : Row) (su so so' : Option SpotRow)
    (h : row.asset_type = some "equity") :
    _get_entry_price row su so = _get_entry_price row su so' := by
  unfold _get_entry_price
  rw [if_pos h, if_pos h]

/-- For a non-equity trade the entry price is resolved from the option
snapshot only. -/
theorem get_entry_price_option (row : Row) (su su' so : Option SpotRow)
    (h : ¬ row.asset_type = some "equity") :
    _get_entry_price row su so = _get_entry_price row su' so := by
  unfold _get_entry_price
  rw [if_neg h, if_neg h]

/-- For an equity trade the stop-loss price is resolved from the
underlying snapshot only. -/
theorem sl_price_equity (row : Row) (su so so' : Option SpotRow)
    (h : row.asset_type = some "equity") :
    sl_price row su so = sl_price row su so' := by
  unfold sl_price
  rw [if_pos h, if_pos h]

/-- For a non-equity trade the stop-loss price is resolved from the
option snapshot only. -/
theorem sl_price_option (row : Row) (su su' so : Option SpotRow)
    (h : ¬ row.asset_type = some "equity") :
    sl_price row su so = sl_price row su' so := by
  unfold sl_price
  rw [if_neg h, if_neg h]

/-- For an equity trade the take-profit price is resolved from the
underlying snapshot only. -/
theorem tp_price_equity (row : Row) (su so so' : Option SpotRow)
    (h : row.asset_type = some "equity") :
    tp_price row su so = tp_price row su so' := by
  unfold tp_price
  rw [if_pos h, if_pos h]

/-- For a non-equity trade the take-profit price is resolved from the
option snapshot only. -/
theorem tp_price_option (row : Row) (su su' so : Option SpotRow)
    (h : ¬ row.asset_type = some "equity") :
    tp_price row su so = tp_price row su' so := by
  unfold tp_price
  rw [if_neg h, if_neg h]

/-! ## Claim theorems -/

/-- C10: the stop-loss and take-profit evaluations return not-triggered
whenever the condition's trigger-kind string is anything other than
`"at"` after lower-casing; in particular a candle-close trigger kind for
SL or TP never fires regardless of prices. -/
theorem sl_tp_fire_only_on_at (row : Row) (su so : Option SpotRow) :
    (¬ lowerOr row.sl_cond = "at" → check_sl row su so = (false, none))
    ∧ (¬ lowerOr row.tp_cond = "at" → check_tp row su so = (false, none)) := by
  constructor
  · intro h
    simp only [check_sl]
    repeat' split
    all_goals rfl
  · intro h
    simp only [check_tp]
    repeat' split
    all_goals rfl

/-- C10 witness: a trade whose SL and TP use the `"candle-close"`
trigger kind never fires even at prices satisfying both thresholds. -/
theorem sl_tp_fire_only_on_at_witness :
    check_sl c10Row (some c10Spot) none = (false, none)
    ∧ check_tp c10Row (some c10Spot) none = (false, none) := by
  obtain ⟨h1, h2⟩ := sl_tp_fire_only_on_at c10Row (some c10Spot) none
  exact ⟨h1 (by decide), h2 (by decide)⟩

/-- C8: each of the three evaluations returns not-triggered when its
condition is disabled, when the snapshots are missing, when the
reference level is absent, or when the resolved price (tick or
timeframe close) is unavailable — never an error. -/
theorem missing_data_not_triggered (row : Row) (su so : Option SpotRow) :
    (¬ row.entry_enabled = some true → check_entry row su so = (false, none))
    ∧ (row.entry = none → check_entry row su so = (false, none))
    ∧ (_get_entry_price row su so = none → check_entry row su so = (false, none))
    ∧ check_entry row none none = (false, none)
    ∧ (¬ row.sl_enabled = some true → check_sl row su so = (false, none))
    ∧ (_get_sl_level row = none → check_sl row su so = (false, none))
    ∧ (sl_price row su so = none → check_sl row su so = (false, none))
    ∧ check_sl row none none = (false, none)
    ∧ (¬ row.tp_enabled = some true → check_tp row su so = (false, none))
    ∧ (_get_tp_level row = none → check_tp row su so = (false, none))
    ∧ (tp_price row su so = none → check_tp row su so = (false, none))
    ∧ check_tp row none none = (false, none) := by
  refine ⟨?_, ?_, ?_, ?_, ?_, ?_, ?_, ?_, ?_, ?_, ?_, ?_⟩
  · intro h
    simp only [check_entry]
    repeat' split <;> simp_all
  · intro h
    simp only [check_entry]
    repeat' split <;> simp_all
  · intro h
    simp only [check_entry]
    repeat' split <;> simp_all
  · have h := get_entry_price_none row
    simp only [check_entry]
    repeat' split <;> simp_all
  · intro h
    simp only [check_sl]
    repeat' split <;> simp_all
  · intro h
    simp only [check_sl]
    repeat' split <;> simp_all
  · intro h
    simp only [check_sl]
    repeat' split <;> simp_all
  · have h := sl_price_none row
    simp only [check_sl]
    repeat' split <;> simp_all
  · intro h
    simp only [check_tp]
    repeat' split <;> simp_all
  · intro h
    simp only [check_tp]
    repeat' split <;> simp_all
  · intro h
    simp only [check_tp]
    repeat' split <;> simp_all
  · have h := tp_price_none row
    simp only [check_tp]
    repeat' split <;> simp_all

/-- C8 witness: a disabled entry with price 0 against level 1000, a
stop-loss with no level, and a take-profit whose timeframe close is
unavailable, all evaluate to not-triggered. -/
theorem missing_data_not_triggered_witness :
    check_entry c8Row (some c8Spot) none = (false, none)
    ∧ check_sl c8Row (some c8Spot) none = (false, none)
    ∧ check_tp c8Row (some c8Spot) none = (false, none) := by
  obtain ⟨h1, _, _, _, _, h6, _, _, _, _, h11, _⟩ :=
    missing_data_not_triggered c8Row (some c8Spot) none
  exact ⟨h1 (by decide), h6 (by decide), h11 (by decide)⟩

/-- C5 counterexample: an enabled entry of trigger kind `"now"`
(immediate) with an available resolved price (50) still returns
not-triggered when the reference level is null, because `check_entry`
requires a non-null level before dispatching on the trigger kind. -/
theorem immediate_entry_counterexample :
    c5Row.entry_enabled = some true
    ∧ lowerOr c5Row.entry_cond = "now"
    ∧ _get_entry_price c5Row (some c5Spot) none = some 50
    ∧ c5Row.entry = none
    ∧ check_entry c5Row (some c5Spot) none = (false, none) := by
  decide

/-- C5 (amended): for every record whose entry condition is enabled with
trigger kind immediate (`"now"`), whose resolved comparison price is
available, and whose reference level is present, `check_entry` returns
triggered with that resolved price. -/
theorem immediate_entry_triggers (row : Row) (su so : Option SpotRow) (p : ℚ)
    (he : row.entry_enabled = some true)
    (hc : lowerOr row.entry_cond = "now")
    (hp : _get_entry_price row su so = some p)
    (hl : row.entry ≠ none) :
    check_entry row su so = (true, some p) := by
  obtain ⟨l, hl'⟩ := Option.ne_none_iff_exists'.mp hl
  unfold check_entry
  rw [he, hp, hl']
  simp [hc]

/-- C5 (amended) witness: the same record with a reference level present
triggers immediately at the resolved price 50. -/
theorem immediate_entry_triggers_witness :
    check_entry { c5Row with entry := some 1 } (some c5Spot) none
      = (true, some 50) :=
  immediate_entry_triggers { c5Row with entry := some 1 } (some c5Spot) none 50
    (by decide) (by decide) (by decide) (by decide)

/-- C3: with the condition enabled, the level present and the price
resolved, the threshold trigger kinds compare as: entry and stop-loss
trigger iff price ≤ level for a long trade and iff price ≥ level
otherwise; take-profit uses the inverted directions. -/
theorem threshold_comparison_directions (row : Row) (su so : Option SpotRow)
    (p l : ℚ) :
    (row.entry_enabled = some true →
      (lowerOr row.entry_cond = "touch" ∨ lowerOr row.entry_cond = "candle-close") →
      _get_entry_price row su so = some p → row.entry = some l →
      ((check_entry row su so).1 = true ↔
        (if row.side = some "long" then p ≤ l else p ≥ l)))
    ∧ (row.sl_enabled = some true → lowerOr row.sl_cond = "at" →
      _get_sl_level row = some l → sl_price row su so = some p →
      ((check_sl row su so).1 = true ↔
        (if row.side = some "long" then p ≤ l else p ≥ l)))
    ∧ (row.tp_enabled = some true → lowerOr row.tp_cond = "at" →
      _get_tp_level row = some l → tp_price row su so = some p →
      ((check_tp row su so).1 = true ↔
        (if row.side = some "long" then p ≥ l else p ≤ l))) := by
  refine ⟨?_, ?_, ?_⟩
  · intro he hc hp hl
    unfold check_entry
    rw [he, hp, hl]
    rcases hc with hc | hc <;>
      simp only [hc] <;>
      by_cases hs : row.side = some "long" <;>
      by_cases h1 : p ≤ l <;>
      by_cases h2 : p ≥ l <;>
      simp [hs, h1, h2]
  · intro he hc hl hp
    unfold check_sl
    rw [he, hp, hl]
    simp only [hc]
    by_cases hs : row.side = some "long" <;>
      by_cases h1 : p ≤ l <;>
      by_cases h2 : p ≥ l <;>
      simp [hs, h1, h2]
  · intro he hc hl hp
    unfold check_tp
    rw [he, hp, hl]
    simp only [hc]
    by_cases hs : row.side = some "long" <;>
      by_cases h1 : p ≥ l <;>
      by_cases h2 : p ≤ l <;>
      simp [hs, h1, h2]

/-- C3 witness: a long trade at price 95 with entry level 100 (touch,
triggers), stop-loss level 90 (does not trigger) and take-profit level
110 (does not trigger). -/
theorem threshold_comparison_directions_witness :
    (check_entry c3Row (some c3Spot) none).1 = true
    ∧ (check_sl c3Row (some c3Spot) none).1 = false
    ∧ (check_tp c3Row (some c3Spot) none).1 = false := by
  refine ⟨?_, ?_, ?_⟩
  · exact ((threshold_comparison_directions c3Row (some c3Spot) none 95 100).1
      (by decide) (Or.inl (by decide)) (by decide) (by decide)).mpr (by decide)
  · have h := ((threshold_comparison_directions c3Row (some c3Spot) none 95 90).2.1
      (by decide) (by decide) (by decide) (by decide))
    have h' : ¬ (check_sl c3Row (some c3Spot) none).1 = true := by
      rw [h]; decide
    simpa using h'
  · have h := ((threshold_comparison_directions c3Row (some c3Spot) none 95 110).2.2
      (by decide) (by decide) (by decide) (by decide))
    have h' : ¬ (check_tp c3Row (some c3Spot) none).1 = true := by
      rw [h]; decide
    simpa using h'

/-- C2 counterexample: for an option trade, `check_sl` reads the option
snapshot, never the underlying one — there is no per-condition
underlying/option price source.  Here the underlying trades at 100,
far below the long stop-loss level 500, while the option trades at
1000: the entry triggers on the option's price, and the stop-loss does
not trigger, and removing the underlying snapshot entirely leaves the
stop-loss result unchanged. -/
theorem snapshot_not_per_condition :
    c2Row.asset_type = some "option"
    ∧ check_entry c2Row (some c2Under) (some c2Option) = (true, some 1000)
    ∧ c2Row.side = some "long" ∧ _get_sl_level c2Row = some 500
    ∧ _get_spot_price (some c2Under) = some 100
    ∧ check_sl c2Row (some c2Under) (some c2Option) = (false, none)
    ∧ check_sl c2Row none (some c2Option)
        = check_sl c2Row (some c2Under) (some c2Option) := by
  decide

/-- C2 (amended): each of entry, stop-loss and take-profit resolves its
comparison price with its own price type (tick vs timeframe close) and
its own timeframe, unaffected by the other conditions' settings; but the
snapshot it reads (underlying vs option) is selected by the trade's
`asset_type`, identically for all three conditions — equity trades read
only the underlying snapshot, non-equity trades only the option one. -/
theorem per_condition_resolution_independence (row : Row) (su so : Option SpotRow) :
    (∀ b c pt tf l, check_sl
        { row with entry_enabled := b, entry_cond := c,
                   entry_price_type := pt, entry_tf := tf, entry := l } su so
      = check_sl row su so)
    ∧ (∀ b c pt tf l, check_tp
        { row with entry_enabled := b, entry_cond := c,
                   entry_price_type := pt, entry_tf := tf, entry := l } su so
      = check_tp row su so)
    ∧ (∀ b c pt tf l, check_entry
        { row with sl_enabled := b, sl_cond := c,
                   sl_price_type := pt, sl_tf := tf, sl := l } su so
      = check_entry row su so)
    ∧ (∀ b c pt tf l, check_tp
        { row with sl_enabled := b, sl_cond := c,
                   sl_price_type := pt, sl_tf := tf, sl := l } su so
      = check_tp row su so)
    ∧ (∀ b c pt tf l, check_entry
        { row with tp_enabled := b, tp_cond := c,
                   tp_price_type := pt, tp_tf := tf, tp := l } su so
      = check_entry row su so)
    ∧ (∀ b c pt tf l, check_sl
        { row with tp_enabled := b, tp_cond := c,
                   tp_price_type := pt, tp_tf := tf, tp := l } su so
      = check_sl row su so)
    ∧ (row.asset_type = some "equity" →
        check_entry row su so = check_entry row su none
        ∧ check_sl row su so = check_sl row su none
        ∧ check_tp row su so = check_tp row su none)
    ∧ (¬ row.asset_type = some "equity" →
        check_entry row su so = check_entry row none so
        ∧ check_sl row su so = check_sl row none so
        ∧ check_tp row su so = check_tp row none so) := by
  refine ⟨fun _ _ _ _ _ => rfl, fun _ _ _ _ _ => rfl, fun _ _ _ _ _ => rfl,
    fun _ _ _ _ _ => rfl, fun _ _ _ _ _ => rfl, fun _ _ _ _ _ => rfl, ?_, ?_⟩
  · intro h
    refine ⟨?_, ?_, ?_⟩
    · unfold check_entry
      rw [get_entry_price_equity row su so none h]
    · unfold check_sl
      rw [sl_price_equity row su so none h]
    · unfold check_tp
      rw [tp_price_equity row su so none h]
  · intro h
    refine ⟨?_, ?_, ?_⟩
    · unfold check_entry
      rw [get_entry_price_option row su none so h]
    · unfold check_sl
      rw [sl_price_option row su none so h]
    · unfold check_tp
      rw [tp_price_option row su none so h]

/-- C2 (amended) witness: for the concrete option trade, the stop-loss
result is the same with and without the underlying snapshot. -/
theorem per_condition_resolution_independence_witness :
    ¬ c2Row.asset_type = some "equity"
    ∧ check_sl c2Row (some c2Under) (some c2Option)
        = check_sl c2Row none (some c2Option) := by
  refine ⟨by decide, ?_⟩
  exact ((per_condition_resolution_independence c2Row (some c2Under)
    (some c2Option)).2.2.2.2.2.2.2 (by decide)).2.1

/-- C9 counterexample: a `"touch"` entry does not compare the
instrument's last (tick) price when the entry price type selects the
timeframe close — the price compared is selected by `entry_price_type`,
not by the trigger kind.  Here last price is 50 ≤ level 100 for a long
trade, yet the `"touch"` entry does not trigger because the resolved
`"5m"` close is 200. -/
theorem touch_compares_resolved_price_counterexample :
    lowerOr c9Row.entry_cond = "touch"
    ∧ c9Row.entry_enabled = some true
    ∧ c9Row.side = some "long" ∧ c9Row.entry = some 100
    ∧ _get_spot_price (some c9Spot) = some 50
    ∧ _get_entry_price c9Row (some c9Spot) none = some 200
    ∧ check_entry c9Row (some c9Spot) none = (false, none) := by
  decide

/-- C9 (amended): the `"touch"` and `"candle-close"` entry trigger kinds
are fully interchangeable: they apply the identical comparison to the
identical resolved price (which is selected by the entry price type and
timeframe fields, not by the trigger kind). -/
theorem touch_candle_close_equivalent (row : Row) (su so : Option SpotRow) :
    check_entry { row with entry_cond := some "touch" } su so
      = check_entry { row with entry_cond := some "candle-close" } su so := by
  have h1 : lowerOr (some "touch") = "touch" := by decide
  have h2 : lowerOr (some "candle-close") = "candle-close" := by decide
  have hp : ∀ c, _get_entry_price { row with entry_cond := c } su so
      = _get_entry_price row su so := fun _ => rfl
  unfold check_entry
  simp [h1, h2, hp]

/-- C6: order submission never produces a price out of thin air: any
transport or broker-side failure yields no-fill; on success the fill
price comes from the order's fill list when that yields one, else from
the average-fill-price field (with a missing order object treated as
empty); when neither yields a price the result is no-fill. -/
theorem fill_price_extraction_policy (fills : List Fill) (avg : Option ℚ) (p : ℚ) :
    place_equity_market .failure = none
    ∧ place_option_market .failure = none
    ∧ place_equity_market (.success none) = none
    ∧ place_option_market (.success none) = none
    ∧ (fills_head_price fills = some p →
        place_equity_market (.success (some ⟨fills, avg⟩)) = some p
        ∧ place_option_market (.success (some ⟨fills, avg⟩)) = some p)
    ∧ (fills_head_price fills = none →
        place_equity_market (.success (some ⟨fills, avg⟩)) = avg
        ∧ place_option_market (.success (some ⟨fills, avg⟩)) = avg) := by
  refine ⟨rfl, rfl, rfl, rfl, ?_, ?_⟩ <;> intro h <;> constructor <;>
    simp [place_equity_market, place_option_market, extract_fill_price, h]

/-- C6 witness: a response with a priced first fill resolves to that
fill's price (5) even when an average price is also present; a response
with no fills resolves to the average price (7). -/
theorem fill_price_extraction_policy_witness :
    place_equity_market (.success (some ⟨[⟨some 5⟩], some 7⟩)) = some 5
    ∧ place_option_market (.success (some ⟨[], some 7⟩)) = some 7 := by
  refine ⟨?_, ?_⟩
  · exact ((fill_price_extraction_policy [⟨some 5⟩] (some 7) 5).2.2.2.2.1
      (by decide)).1
  · exact ((fill_price_extraction_policy [] (some 7) 5).2.2.2.2.2
      (by decide)).2

/-- C1: if the iteration submitted an order for a trade and the broker
returned no confirmed fill price for it, then the iteration issues no
persistence write for that trade — no executed-trade insert or update,
no mark-as-managing, no delete — leaving its lifecycle status
unchanged. -/
theorem no_fill_no_state_change (row : Row) (su so : Option SpotRow)
    (broker : OrderReq → Option ℚ)
    (horders : (process_row row su so broker).orders ≠ [])
    (hnofill : ∀ req ∈ (process_row row su so broker).orders, broker req = none) :
    (process_row row su so broker).writes = [] := by
  revert horders hnofill
  unfold process_row
  repeat' split
  all_goals intro horders hnofill
  all_goals simp_all

/-- C1 witness: a managing trade whose stop-loss triggers submits a sell
order; with a broker returning no fill, no write is issued. -/
theorem no_fill_no_state_change_witness :
    (process_row c1Row (some c1Spot) none (fun _ => none)).orders ≠ []
    ∧ (process_row c1Row (some c1Spot) none (fun _ => none)).writes = [] := by
  refine ⟨by decide,
    no_fill_no_state_change c1Row (some c1Spot) none (fun _ => none) (by decide) ?_⟩
  intro req _
  rfl

/-- C4: the evaluation order within one iteration is entry alone, or
stop-loss alone, or stop-loss then take-profit — take-profit is never
evaluated before stop-loss; and for a managing trade whose stop-loss
evaluates as triggered with a price, only the stop-loss path executes:
take-profit is never evaluated, the single order is the close order, and
any writes are the reason-"sl" close followed by the delete. -/
theorem sl_evaluated_before_tp (row : Row) (su so : Option SpotRow)
    (broker : OrderReq → Option ℚ) :
    ((process_row row su so broker).evals = []
      ∨ (process_row row su so broker).evals = ["entry"]
      ∨ (process_row row su so broker).evals = ["sl"]
      ∨ (process_row row su so broker).evals = ["sl", "tp"])
    ∧ (row.manage = some "Y" →
      (row.status = some "nt-managing" ∨ row.status = some "pos-managing") →
      (check_sl row su so).1 = true → ¬ (check_sl row su so).2 = none →
      (process_row row su so broker).evals = ["sl"]
      ∧ (process_row row su so broker).orders = [close_req row]
      ∧ ((process_row row su so broker).writes = []
        ∨ ∃ fp, (process_row row su so broker).writes
            = [DbWrite.update_executed_trade_close fp "sl", DbWrite.delete_trade])) := by
  constructor
  · unfold process_row
    repeat' split
    all_goals simp
  · intro hm hst h1 h2
    unfold process_row
    rw [hm]
    rcases hst with h | h <;> rw [h] <;>
      rcases hb : broker (close_req row) with _ | fp <;>
        simp [h1, h2, hb]

/-- C4 witness: a managing trade whose stop-loss and take-profit are
both satisfied evaluates only the stop-loss. -/
theorem sl_evaluated_before_tp_witness :
    (check_sl c4Row (some c4Spot) none).1 = true
    ∧ (check_tp c4Row (some c4Spot) none).1 = true
    ∧ (process_row c4Row (some c4Spot) none (fun _ => some 80)).evals = ["sl"] := by
  refine ⟨by decide, by decide, ?_⟩
  exact ((sl_evaluated_before_tp c4Row (some c4Spot) none (fun _ => some 80)).2
    (by decide) (Or.inr (by decide)) (by decide) (by decide)).1

/-- C7: a pending-entry (`nt-waiting`) trade flagged for force close
(`manage = "C"`) is deleted with zero broker order calls, whatever the
snapshots and whatever the broker would answer. -/
theorem force_close_pending_deletes (row : Row) (su so : Option SpotRow)
    (broker : OrderReq → Option ℚ)
    (hm : row.manage = some "C") (hs : row.status = some "nt-waiting") :
    (process_row row su so broker).orders = []
    ∧ (process_row row su so broker).writes = [DbWrite.delete_trade] := by
  unfold process_row
  rw [hm, hs]
  simp

/-- C7 witness: the concrete pending-entry force-close trade is deleted
with no order even against a broker that would fill anything. -/
theorem force_close_pending_deletes_witness :
    (process_row c7Row none none (fun _ => some 5)).orders = []
    ∧ (process_row c7Row none none (fun _ => some 5)).writes
        = [DbWrite.delete_trade] :=
  force_close_pending_deletes c7Row none none (fun _ => some 5)
    (by decide) (by decide)

end TradeManager
